import Mathlib

set_option maxRecDepth 8000

/-!
Shallow embedding of the TEES training orchestrator (`train.py`): the
task-default resolver `getTaskSettings`, the step-plan builder `getSteps`,
the data slicers `getSubsets` / `getFolds`, the working-directory setup
`workdir`, and the relevant phase slices of `train`.  Python strings are
`String`, Python `None` is `Option.none`, the string sentinel `"None"` is
`some "None"`, and filesystem existence is an oracle `String → Bool`;
side effects are recorded as explicit action lists.
-/

/-! ## Python string / path primitives (structural, kernel-reducible) -/

/-- One rewriting pass worker for `str.replace`: scans the character list,
replacing each non-overlapping occurrence of `pat` left to right.  `fuel`
bounds recursion; every step consumes at least one input character, so a
fuel of the input length is always enough. -/
def listReplaceAux (pat rep : List Char) : Nat → List Char → List Char
  | _, [] => []
  | 0, l => l
  | fuel + 1, c :: rest =>
    if pat.isPrefixOf (c :: rest) then
      rep ++ listReplaceAux pat rep fuel (List.drop (pat.length - 1) rest)
    else
      c :: listReplaceAux pat rep fuel rest

/-- Python `s.replace(pat, rep)` for a non-empty `pat` (every call in the
source uses a non-empty literal pattern): replaces all non-overlapping
occurrences, left to right. -/
def strReplace (s pat rep : String) : String :=
  if pat.data = [] then s
  else String.mk (listReplaceAux pat.data rep.data s.data.length s.data)

/-- Substring test worker on character lists. -/
def listContainsSub (pat : List Char) : List Char → Bool
  | [] => pat.isPrefixOf []
  | c :: rest => pat.isPrefixOf (c :: rest) || listContainsSub pat rest

/-- Python `needle in hay` on strings: substring containment. -/
def strIn (needle hay : String) : Bool :=
  listContainsSub needle.data hay.data

/-- Python `sep.join(parts)`. -/
def joinWith (sep : String) : List String → String
  | [] => ""
  | [s] => s
  | s :: rest => s ++ sep ++ joinWith sep rest

/-- Worker for splitting a string at a separator character. -/
def splitOnCharAux (sep : Char) : List Char → List Char → List String
  | acc, [] => [String.mk acc.reverse]
  | acc, c :: rest =>
    if c = sep then String.mk acc.reverse :: splitOnCharAux sep [] rest
    else splitOnCharAux sep (c :: acc) rest

/-- Python `s.split(sep)` for a one-character separator. -/
def splitOnChar (sep : Char) (s : String) : List String :=
  splitOnCharAux sep [] s.data

/-- Python `os.path.basename` for POSIX paths: the part after the last `/`. -/
def basename (p : String) : String :=
  (splitOnChar '/' p).getLastD ""

/-- Python `os.path.join(a, b)` for POSIX paths. -/
def pathJoin (a b : String) : String :=
  if b.data.headD ' ' = '/' then b
  else if a = "" then b
  else if a.data.getLastD ' ' = '/' then a ++ b
  else a ++ "/" ++ b

/-- Decimal digit value of a character, if any. -/
def digitVal (c : Char) : Option Nat :=
  if '0' ≤ c ∧ c ≤ '9' then some (c.toNat - '0'.toNat) else none

/-- Accumulating decimal reader for `int()`. -/
def digitsVal : List Char → Option Nat → Option Nat
  | [], acc => acc
  | c :: rest, acc =>
    match digitVal c, acc with
    | some d, some a => digitsVal rest (some (a * 10 + d))
    | _, _ => none

/-- Python `int(s)` on canonical non-negative decimal strings (the only
form reaching the call in the source); anything else fails. -/
def strToNat (s : String) : Option Nat :=
  match s.data with
  | [] => none
  | l => digitsVal l (some 0)

/-- Python `x in list` for string lists. -/
def memStr (t : String) : List String → Bool
  | [] => false
  | x :: rest => if x = t then true else memStr t rest

/-! ## Parameter-string model -/

/-- A parameter slot holds `some s` with `s ≠ ""` when the caller supplied
a non-empty override. -/
def IsSet (o : Option String) : Prop := ∃ s, o = some s ∧ s ≠ ""

/-- Modelled from the spec: `Utils.Parameters.cat` (`Utils/Parameters.py`
is not part of the sources here).  The spec describes the combination of a
task-default fragment with a caller value as a "concatenate unless
override already set" rule: if the caller already supplied a non-empty
value for the slot, the task default is not applied; when the slot is
unset (or empty), the fragment becomes its value.  The source passes the
two arguments in varying positional order; the embedding always passes
the task-default fragment first and the caller's current value second. -/
def Parameters.cat (fragment : String) (current : Option String) : Option String :=
  match current with
  | none => some fragment
  | some s => if s = "" then some fragment else some s

/-- Modelled from the spec: `Utils.InteractionXML.Catenate.catenate`
(not part of the sources here) concatenates the given source corpora into
the derived archive at `target` (cached by existence check) and returns
that path. -/
def Catenate.catenate (_srcs : List String) (target : String) : String :=
  target

/-! ## Data model -/

/-- The `inputFiles` dictionary: keys `"train"`, `"devel"`, `"test"`. -/
structure InputFiles where
  train : Option String
  devel : Option String
  test : Option String
deriving DecidableEq

/-- The `exampleStyles` dictionary. -/
structure ExampleStyles where
  examples : Option String
  trigger : Option String
  edge : Option String
  unmerging : Option String
  modifiers : Option String
deriving DecidableEq

/-- The `classifierParams` dictionary; `recallAdjust` is the `"recall"` key
(`recall` is a reserved word here). -/
structure ClassifierParams where
  examples : Option String
  trigger : Option String
  recallAdjust : Option String
  edge : Option String
  unmerging : Option String
  modifiers : Option String
deriving DecidableEq

/-- The tuple returned by `getTaskSettings`. -/
structure TaskSettings where
  detector : Option String
  processUnmerging : Option Bool
  processModifiers : Option Bool
  isSingleStage : Bool
  bioNLPSTParams : Option String
  preprocessorParams : Option String
  inputFiles : InputFiles
  exampleStyles : ExampleStyles
  classifierParameters : ClassifierParams
  removeNamesFromEmpty : Bool
deriving DecidableEq

/-! ## Task-default resolution (`getTaskSettings`, train.py lines 283-421) -/

/-- The recognized task identifiers (the assertion at line 288). -/
def recognizedTasks : List String :=
  ["GE09", "GE09.1", "GE09.2", "GE11", "GE11.1", "GE11.2", "EPI11", "ID11",
   "BB11", "BI11", "BI11-FULL", "CO11", "REL11", "REN11", "DDI11", "DDI11-FULL"]

/-- Splitting a `TASK.N` identifier into the base identifier and the
integer sub-task number (lines 291-294); a task without a dot gets the
default sub-task 2.  Failure mirrors the tuple-unpack / `int()` errors. -/
def parseSubTask (task0 : String) : Except String (String × Nat) :=
  if 2 ≤ (splitOnChar '.' task0).length then
    if (splitOnChar '.' task0).length ≠ 2 then .error "ValueError: unpack"
    else
      match strToNat ((splitOnChar '.' task0).getD 1 "") with
      | some n => .ok ((splitOnChar '.' task0).headD task0, n)
      | none => .error "ValueError: int"
  else .ok (task0, 2)

/-- The fully normalized task identifier: the part before a `.` sub-task
qualifier, with every `-MINI` removed (split happens at line 293, the
`-MINI` strip at line 314). -/
def taskBase (t0 : String) : String :=
  strReplace (if 2 ≤ (splitOnChar '.' t0).length then (splitOnChar '.' t0).headD t0 else t0)
    "-MINI" ""

/-- Default input files from the corpus root (lines 301-312); the paths
use the task identifier before the `-MINI` strip, with `-FULL` removed. -/
def resolveInputFiles (dataPath task1 : String) (files : InputFiles) : InputFiles :=
  { train :=
      if files.train = none then
        if task1 = "ID" then
          some (Catenate.catenate
            [pathJoin dataPath "ID11-train.xml", pathJoin dataPath "GE11-devel.xml",
             pathJoin dataPath "GE11-train.xml"]
            "training/ID11-train-and-GE11-devel-and-train.xml.gz")
        else some (pathJoin dataPath (strReplace task1 "-FULL" "" ++ "-train.xml"))
      else files.train,
    devel :=
      if files.devel = none then
        some (pathJoin dataPath (strReplace task1 "-FULL" "" ++ "-devel.xml"))
      else files.devel,
    test :=
      if files.test = none then
        some (pathJoin dataPath (strReplace task1 "-FULL" "" ++ "-test.xml"))
      else files.test }

/-- Default detector selection (lines 316-323); returns the detector and
the possibly-updated single-stage flag. -/
def resolveDetector (task2 : String) (detector : Option String) (iss : Bool) :
    Option String × Bool :=
  match detector with
  | some d => (some d, iss)
  | none =>
    if task2 = "CO11" then (some "Detectors.CODetector", iss)
    else if memStr task2 ["REN11", "BI11", "DDI11"] then (some "Detectors.EdgeDetector", true)
    else (some "Detectors.EventDetector", iss)

/-- BioNLP Shared Task parameter defaults (lines 326-331). -/
def resolveSTParams (task2 : String) (bst : Option String) : Option String :=
  if task2 = "BI11-FULL" then Parameters.cat "convert:scores" bst
  else if task2 = "REL11" then Parameters.cat "convert:evaluate:scores:a2Tag=rel" bst
  else if ¬ memStr task2 ["DDI11", "DDI11-FULL"] then Parameters.cat "convert:evaluate:scores" bst
  else bst

/-- Unmerging toggle default (lines 338-342). -/
def resolveUnmergingToggle (task2 : String) (pu : Option Bool) (iss : Bool) : Option Bool :=
  if pu = none ∧ iss = false then
    some (!memStr task2 ["CO11", "REL11", "BB11", "BI11-FULL", "DDI11-FULL"])
  else pu

/-- Modifier-prediction toggle default (lines 343-347). -/
def resolveModifiersToggle (task2 : String) (pm : Option Bool) : Option Bool :=
  if pm = none then some (memStr task2 ["GE11", "EPI11", "ID11"]) else pm

/-- Single-stage example-style defaults (lines 350-356). -/
def resolveSingleStageStyles (task2 : String) (es : ExampleStyles) : ExampleStyles :=
  if task2 = "REN11" then
    { es with examples := (Parameters.cat
        "trigger_features:typed:no_linear:entities:noMasking:maxFeatures:bacteria_renaming:maskTypeAsProtein=Gene"
        es.examples) }
  else if task2 = "BI11" then
    { es with examples := (Parameters.cat
        "trigger_features:typed:directed:no_linear:entities:noMasking:maxFeatures:auto_limits"
        es.examples) }
  else if task2 = "DDI11" then
    { es with examples := (Parameters.cat
        "trigger_features:typed:no_linear:entities:noMasking:maxFeatures:ddi_features:ddi_mtmx:filter_shortest_path=conj_and"
        es.examples) }
  else es

/-- Edge example-style defaults (lines 358-377); for GE09/GE11 sub-task 1
the extra `:genia_task1` fragment is layered on the just-resolved value. -/
def resolveEdgeStyle (task2 : String) (subTask : Nat) (es : ExampleStyles) : ExampleStyles :=
  if memStr task2 ["GE09", "GE11"] then
    if subTask = 1 then
      { es with edge := Parameters.cat ":genia_task1" (Parameters.cat
          "trigger_features:typed:directed:no_linear:entities:auto_limits:noMasking:maxFeatures"
          es.edge) }
    else
      { es with edge := (Parameters.cat
          "trigger_features:typed:directed:no_linear:entities:auto_limits:noMasking:maxFeatures"
          es.edge) }
  else if task2 = "BB11" then
    { es with edge := (Parameters.cat
        "trigger_features:typed:directed:no_linear:entities:auto_limits:noMasking:maxFeatures"
        es.edge) }
  else if task2 = "EPI11" then
    { es with edge := (Parameters.cat
        "trigger_features:typed:directed:no_linear:entities:auto_limits:noMasking:maxFeatures"
        es.edge) }
  else if task2 = "ID11" then
    { es with edge := (Parameters.cat
        "trigger_features:typed:directed:no_linear:entities:auto_limits:noMasking:maxFeatures"
        es.edge) }
  else if task2 = "REL11" then
    { es with edge := (Parameters.cat
        "trigger_features:typed:directed:no_linear:entities:noMasking:maxFeatures:auto_limits:rel_features"
        es.edge) }
  else if task2 = "CO11" then
    { es with edge := (Parameters.cat
        "trigger_features:typed:directed:no_linear:entities:noMasking:maxFeatures:auto_limits"
        es.edge) }
  else if task2 = "BI11-FULL" then
    { es with edge := (Parameters.cat
        "trigger_features:typed:directed:no_linear:entities:noMasking:maxFeatures:auto_limits"
        es.edge) }
  else if task2 = "DDI11-FULL" then
    { es with edge := (Parameters.cat
        "trigger_features:typed:no_linear:entities:noMasking:maxFeatures:ddi_features:filter_shortest_path=conj_and"
        es.edge) }
  else
    { es with edge := (Parameters.cat
        "trigger_features:typed:directed:no_linear:entities:noMasking:maxFeatures"
        es.edge) }

/-- Trigger example-style defaults (lines 379-390).  The CO11 branch only
sets a module-global builder option, leaving the style untouched; the
BI11-FULL / DDI11-FULL branch assigns the literal style directly,
without the layering combinator. -/
def resolveTriggerStyle (task2 : String) (subTask : Nat) (es : ExampleStyles) : ExampleStyles :=
  if memStr task2 ["GE09", "GE11"] ∧ subTask = 1 then
    { es with trigger := Parameters.cat "genia_task1" es.trigger }
  else if task2 = "EPI11" then
    { es with trigger := Parameters.cat "epi_merge_negated" es.trigger }
  else if task2 = "BB11" then
    { es with trigger := Parameters.cat "bb_features:build_for_nameless:wordnet" es.trigger }
  else if task2 = "REL11" then
    { es with trigger := Parameters.cat "rel_features" es.trigger }
  else if task2 = "CO11" then es
  else if memStr task2 ["BI11-FULL", "DDI11-FULL"] then
    { es with trigger := some "build_for_nameless:names" }
  else es

/-- Unmerging example-style default (line 392), applied for every
multi-stage task. -/
def resolveUnmergingStyle (es : ExampleStyles) : ExampleStyles :=
  { es with unmerging := (Parameters.cat
      "trigger_features:typed:directed:no_linear:entities:genia_limits:noMasking:maxFeatures"
      es.unmerging) }

/-- Example-style defaults (lines 349-392). -/
def resolveExampleStyles (task2 : String) (subTask : Nat) (iss : Bool)
    (es : ExampleStyles) : ExampleStyles :=
  if iss then resolveSingleStageStyles task2 es
  else resolveUnmergingStyle (resolveTriggerStyle task2 subTask (resolveEdgeStyle task2 subTask es))

/-- Single-stage classifier-parameter defaults (lines 395-401). -/
def resolveSingleStageParams (task2 : String) (cp : ClassifierParams) : ClassifierParams :=
  if task2 = "REN11" then
    { cp with examples := (Parameters.cat
        "c=10,100,1000,2000,3000,4000,4500,5000,5500,6000,7500,10000,20000,25000,28000,50000,60000"
        cp.examples) }
  else if task2 = "BI11" then
    { cp with examples := (Parameters.cat
        "c=10,100,1000,2500,5000,7500,10000,20000,25000,28000,50000,60000,65000,80000,100000,150000"
        cp.examples) }
  else if task2 = "DDI11" then
    { cp with examples := (Parameters.cat
        "c=10,100,1000,2500,4000,5000,6000,7500,10000,20000,25000,50000:TEES.threshold"
        cp.examples) }
  else cp

/-- Trigger classifier-parameter default (line 403). -/
def resolveTriggerParams (cp : ClassifierParams) : ClassifierParams :=
  { cp with trigger := (Parameters.cat
      "c=1000,5000,10000,20000,50000,80000,100000,150000,180000,200000,250000,300000,350000,500000,1000000"
      cp.trigger) }

/-- Recall-adjustment defaults (lines 404-407). -/
def resolveRecallParams (task2 : String) (cp : ClassifierParams) : ClassifierParams :=
  if task2 = "CO11" then
    { cp with recallAdjust := Parameters.cat "0.8,0.9,0.95,1.0" cp.recallAdjust }
  else
    { cp with recallAdjust := Parameters.cat "0.5,0.6,0.65,0.7,0.85,1.0,1.1,1.2" cp.recallAdjust }

/-- Edge classifier-parameter defaults (lines 408-411). -/
def resolveEdgeParams (task2 : String) (cp : ClassifierParams) : ClassifierParams :=
  if memStr task2 ["REL11", "CO11"] then
    { cp with edge := (Parameters.cat
        "c=10,100,1000,5000,7500,10000,20000,25000,28000,50000,60000,65000,100000,500000,1000000"
        cp.edge) }
  else
    { cp with edge := (Parameters.cat
        "c=5000,7500,10000,20000,25000,27500,28000,29000,30000,35000,40000,50000,60000,65000"
        cp.edge) }

/-- Unmerging classifier-parameter default (line 412). -/
def resolveUnmergingParams (cp : ClassifierParams) : ClassifierParams :=
  { cp with unmerging := (Parameters.cat
      "c=1,10,100,500,1000,1500,2500,5000,10000,20000,50000,80000,100000"
      cp.unmerging) }

/-- Modifier classifier-parameter default (line 413). -/
def resolveModifiersParams (cp : ClassifierParams) : ClassifierParams :=
  { cp with modifiers := Parameters.cat "c=5000,10000,20000,50000,100000" cp.modifiers }

/-- Classifier-parameter defaults (lines 394-413). -/
def resolveClassifierParams (task2 : String) (iss : Bool) (cp : ClassifierParams) :
    ClassifierParams :=
  if iss then resolveSingleStageParams task2 cp
  else
    resolveModifiersParams (resolveUnmergingParams (resolveEdgeParams task2
      (resolveRecallParams task2 (resolveTriggerParams cp))))

/-- Does a style slot hold a value containing the `names` feature flag
(Python: `style != None and "names" in style`)? -/
def styleHasNames : Option String → Bool
  | some s => strIn "names" s
  | none => false

/-- The `removeNamesFromEmpty` side output (lines 415-420). -/
def removeNamesCheck (isSingleStage : Bool) (es : ExampleStyles) : Bool :=
  if isSingleStage && styleHasNames es.examples then true
  else if !isSingleStage && styleHasNames es.trigger then true
  else false

/-- Assembles the `getTaskSettings` return tuple; `removeNamesFromEmpty`
is always computed from the final single-stage flag and example styles
(lines 415-421). -/
def TaskSettings.build (detector : Option String) (pu pm : Option Bool) (iss : Bool)
    (bst pp : Option String) (files : InputFiles) (es : ExampleStyles)
    (cp : ClassifierParams) : TaskSettings :=
  { detector := detector, processUnmerging := pu, processModifiers := pm,
    isSingleStage := iss, bioNLPSTParams := bst, preprocessorParams := pp,
    inputFiles := files, exampleStyles := es, classifierParameters := cp,
    removeNamesFromEmpty := removeNamesCheck iss es }

/-- The body of `getTaskSettings` for a recognized task, after the
sub-task split (lines 296-413).  Note: at lines 332-335 the source
computes a preprocessor-parameter fragment with `Parameters.cat` but
never assigns the result, so `pp` is returned unchanged. -/
def resolveTask (dataPath task1 : String) (subTask : Nat) (detector : Option String)
    (pu pm : Option Bool) (iss : Bool) (bst pp : Option String) (files : InputFiles)
    (es : ExampleStyles) (cp : ClassifierParams) : TaskSettings :=
  let files2 := resolveInputFiles dataPath task1 files
  let task2 := strReplace task1 "-MINI" ""
  let det2 := resolveDetector task2 detector iss
  let iss2 := det2.2
  TaskSettings.build det2.1
    (resolveUnmergingToggle task2 pu iss2)
    (resolveModifiersToggle task2 pm)
    iss2
    (resolveSTParams task2 bst)
    pp
    files2
    (resolveExampleStyles task2 subTask iss2 es)
    (resolveClassifierParams task2 iss2 cp)

/-- `getTaskSettings` (lines 283-421).  `dataPath` stands for the
configured corpus root `Settings.CORPUS_DIR`.  With no task, everything
is returned unchanged (except for the `removeNamesFromEmpty` check, which
always runs); an unrecognized task fails the assertion at line 288. -/
def getTaskSettings (dataPath : String) (task : Option String) (detector : Option String)
    (pu pm : Option Bool) (iss : Bool) (bst pp : Option String) (files : InputFiles)
    (es : ExampleStyles) (cp : ClassifierParams) : Except String TaskSettings :=
  match task with
  | none => .ok (TaskSettings.build detector pu pm iss bst pp files es cp)
  | some task0 =>
    if memStr (strReplace task0 "-MINI" "") recognizedTasks then
      match parseSubTask task0 with
      | .ok ts => .ok (resolveTask dataPath ts.1 ts.2 detector pu pm iss bst pp files es cp)
      | .error e => .error e
    else .error ("AssertionError: " ++ task0)

/-! ## Step plan construction (`getSteps`, train.py lines 138-168) -/

/-- A value of the parsed `step` dictionary for one main step: Python
`None`, `True` (start from the beginning of that step), a substep name,
or a list of substep names (which the assertion at line 151 rejects:
`no list allowed`). -/
inductive StepValue
  | unset
  | fromStart
  | fromSub (s : String)
  | fromList (l : List String)
deriving DecidableEq

/-- The parsed `step` dictionary over the four main steps. -/
structure StepSpec where
  train : StepValue
  devel : StepValue
  empty : StepValue
  test : StepValue
deriving DecidableEq

/-- A value of the parsed `omitSteps` dictionary for one main step:
Python `None`, `True` (omit the whole main step), or a substep name. -/
inductive OmitValue
  | unset
  | whole
  | subs (s : String)
deriving DecidableEq

/-- The parsed `omitSteps` dictionary over the four main steps. -/
structure OmitSpec where
  train : OmitValue
  devel : OmitValue
  empty : OmitValue
  test : OmitValue
deriving DecidableEq

/-- The fixed main-step list passed by `train` (line 73). -/
def mainStepNames : List String := ["TRAIN", "DEVEL", "EMPTY", "TEST"]

/-- The `step` dictionary as key/value pairs, in the fixed step order. -/
def StepSpec.pairs (s : StepSpec) : List (String × StepValue) :=
  [("TRAIN", s.train), ("DEVEL", s.devel), ("EMPTY", s.empty), ("TEST", s.test)]

/-- The `omitSteps` dictionary as key/value pairs. -/
def OmitSpec.pairs (o : OmitSpec) : List (String × OmitValue) :=
  [("TRAIN", o.train), ("DEVEL", o.devel), ("EMPTY", o.empty), ("TEST", o.test)]

/-- The main steps whose `step` entry is not `None`, i.e. the steps that
claim the resume point (the loop at lines 143-151 asserts there is at
most one of these). -/
def markedSteps (s : StepSpec) : List String :=
  s.pairs.filterMap (fun p => match p.2 with | .unset => none | _ => some p.1)

/-- The main steps marked with a list of substeps — the values the
line-151 assertion (`no list allowed`) rejects. -/
def listMarkedSteps (s : StepSpec) : List String :=
  s.pairs.filterMap (fun p => match p.2 with | .fromList _ => some p.1 | _ => none)

/-- The substep to start from, for one step value (lines 144-151); a
list value never reaches the returned map, since the line-151 assertion
fires first. -/
def subStepOf : StepValue → Option String
  | .fromSub s => some s
  | _ => none

/-- The constructor arguments handed to `StepSelector` (line 167). -/
structure StepSelectorArgs where
  steps : List String
  fromStep : Option String
  omitSteps : List String
deriving DecidableEq

/-- The triple returned by `getSteps`. -/
structure StepsResult where
  selector : StepSelectorArgs
  fromSubStep : List (String × Option String)
  omitSubSteps : List (String × Option String)
deriving DecidableEq

/-- `getSteps` (lines 138-168): the loop at lines 143-151 fails the
line-146 assertion when more than one main step claims the resume point,
and the line-151 assertion (`no list allowed`) when a marked step's
value is a list rather than `True` or a single substep string; otherwise
it returns the selector arguments together with the per-step substep
maps.  When both assertions are violated, which one fires first depends
on the Python 2 dict iteration order, which is arbitrary; the embedding
fixes one order, and only the unambiguous single-violation error
messages are relied on. -/
def getSteps (step : StepSpec) (omitSteps : OmitSpec) : Except String StepsResult :=
  if 2 ≤ (markedSteps step).length then
    .error "AssertionError: processing can start from one place only"
  else if listMarkedSteps step ≠ [] then
    .error "AssertionError: no list allowed"
  else
    .ok { selector :=
            { steps := mainStepNames,
              fromStep := (markedSteps step).head?,
              omitSteps := omitSteps.pairs.filterMap
                (fun p => if p.2 = OmitValue.whole then some p.1 else none) },
          fromSubStep := step.pairs.map (fun p => (p.1, subStepOf p.2)),
          omitSubSteps := omitSteps.pairs.map
            (fun p => (p.1, match p.2 with | .subs s => some s | _ => none)) }

/-- The resume step of a successful `getSteps` call, `none` on failure. -/
def getStepsFromStep (step : StepSpec) (omitSteps : OmitSpec) : Option (Option String) :=
  match getSteps step omitSteps with
  | .ok r => some r.selector.fromStep
  | .error _ => none

/-! ## Subset materialization (`getSubsets`, train.py lines 192-203) -/

/-- The recorded call to `Utils.InteractionXML.Subset.getSubset`
(line 202). -/
inductive SubAction
  | getSubset (src out fraction seed : String)
deriving DecidableEq

/-- The parsed `subset` dictionary; fraction values are kept in their
`str()` form, `seed` likewise. -/
structure SubsetParams where
  train : Option String
  devel : Option String
  test : Option String
  all : Option String
  seed : String
deriving DecidableEq

/-- The derived subset file name (line 200):
`<outdir>/subset_<fraction>_<seed>_<basename of source>`. -/
def subsetOutName (outdir fraction seed src : String) : String :=
  pathJoin outdir ("subset_" ++ fraction ++ "_" ++ seed ++ "_" ++ basename src)

/-- One iteration of the `getSubsets` loop for one dataset (lines
193-203): `dsFile` is the dataset's current input file, `dsFrac` its
fraction, `tmp` the directory `tempfile.mkdtemp()` would create.  Returns
the new file entry, the (possibly materialized) output directory and the
recomputation actions. -/
def subsetStep (fs : String → Bool) (tmp seed : String) (allFrac : Option String)
    (dsFile dsFrac : Option String) (outdir : Option String) :
    Option String × Option String × List SubAction :=
  match dsFile with
  | none => (none, outdir, [])
  | some f =>
    if f = "None" then (some f, outdir, [])
    else if dsFrac = none ∧ allFrac = none then (some f, outdir, [])
    else
      let fraction := match dsFrac with | some fr => fr | none => allFrac.getD ""
      let outdirS := match outdir with | some d => d | none => tmp
      let outName := subsetOutName outdirS fraction seed f
      (some outName, some outdirS,
        if fs outName then [] else [SubAction.getSubset f outName fraction seed])

/-- `getSubsets` (lines 192-203), iterating the datasets in the source's
order `devel`, `train`, `test` and threading the output directory. -/
def getSubsets (fs : String → Bool) (files : InputFiles) (subset : SubsetParams)
    (outdir : Option String) (tmp : String) : InputFiles × List SubAction :=
  let r1 := subsetStep fs tmp subset.seed subset.all files.devel subset.devel outdir
  let r2 := subsetStep fs tmp subset.seed subset.all files.train subset.train r1.2.1
  let r3 := subsetStep fs tmp subset.seed subset.all files.test subset.test r2.2.1
  ({ train := r2.1, devel := r1.1, test := r3.1 }, r1.2.2 ++ r2.2.2 ++ r3.2.2)

/-! ## Fold materialization (`getFolds`, train.py lines 205-224) -/

/-- A per-dataset fold value: a single fold label or a list of labels. -/
inductive FoldSpec
  | str (s : String)
  | list (l : List String)
deriving DecidableEq

/-- The parsed `folds` dictionary. -/
structure FoldsParams where
  train : Option FoldSpec
  devel : Option FoldSpec
  test : Option FoldSpec
deriving DecidableEq

/-- The runtime value of the local variable `folds` inside `getFolds`:
initially the dictionary, but the loop at line 211 reassigns it to the
current dataset's own fold value. -/
inductive FoldsVar
  | dict (d : FoldsParams)
  | val (v : Option FoldSpec)
deriving DecidableEq

/-- The Python exceptions `getFolds` can raise. -/
inductive PyError
  | assertionError
  | typeError
deriving DecidableEq

/-- Effects recorded by `getFolds`: a `getSubset` call filtering the
train source on fold labels (line 223), and the stray write of the
literal key `"dataset"` (line 213). -/
inductive FoldAction
  | getSubsetFold (src : Option String) (out : String) (labels : List String)
  | setStrayDatasetKey
deriving DecidableEq

/-- The outcome of `getFolds`: normal return or a raised exception; both
carry the input-file dictionary and the recorded actions at that point
(the dictionary is mutated in place before a raise). -/
inductive FoldOutcome
  | ok (files : InputFiles) (actions : List FoldAction)
  | err (e : PyError) (files : InputFiles) (actions : List FoldAction)
deriving DecidableEq

/-- The fold labels as a list (line 215-216 wraps a single string). -/
def FoldSpec.labels : FoldSpec → List String
  | .str s => [s]
  | .list l => l

/-- The fold id string (lines 217-218): labels joined with `_`, every
occurrence of `train` replaced by `t`, in the order given. -/
def foldIdString (labels : List String) : String :=
  strReplace (joinWith "_" labels) "train" "t"

/-- The mutable state of the `getFolds` loop. -/
structure FoldLoopState where
  files : InputFiles
  foldsVar : FoldsVar
  outdir : Option String
  actions : List FoldAction
deriving DecidableEq

/-- One iteration of the `getFolds` loop (lines 210-224) for the dataset
named `dataset`, with `getFold` reading that dataset's entry of the
`folds` dictionary and `setFile` writing that dataset's input-file entry.
Subscripting the loop variable raises `TypeError` once it no longer holds
the dictionary (the line-211 reassignment). -/
def getFoldsStep (fs : String → Bool) (tmp dataset : String)
    (getFold : FoldsParams → Option FoldSpec)
    (setFile : InputFiles → Option String → InputFiles)
    (st : FoldLoopState) : Except PyError FoldLoopState :=
  match st.foldsVar with
  | .val _ => .error .typeError
  | .dict d =>
    match getFold d with
    | none =>
      .ok { st with foldsVar := .val none,
                    actions := st.actions ++ [FoldAction.setStrayDatasetKey] }
    | some spec =>
      let labels := spec.labels
      let outdirS := match st.outdir with | some dir => dir | none => tmp
      let outFileName := pathJoin outdirS (dataset ++ "-" ++ foldIdString labels ++ ".xml")
      let acts := if fs outFileName then []
                  else [FoldAction.getSubsetFold st.files.train outFileName labels]
      .ok { files := setFile st.files (some outFileName),
            foldsVar := .val (some (FoldSpec.list labels)),
            outdir := some outdirS,
            actions := st.actions ++ acts }

/-- `getFolds` (lines 205-224): early return when the train or devel fold
list is missing, then the devel/test input-file assertions, then the
loop over `devel`, `train`, `test`. -/
def getFolds (fs : String → Bool) (files : InputFiles) (folds : FoldsParams)
    (outdir : Option String) (tmp : String) : FoldOutcome :=
  if folds.train = none ∨ folds.devel = none then .ok files []
  else if ¬ (files.devel = none ∨ files.devel = some "None") then
    .err .assertionError files []
  else if ¬ (files.test = none ∨ files.test = some "None") then
    .err .assertionError files []
  else
    match getFoldsStep fs tmp "devel" (fun d => d.devel) (fun f v => { f with devel := v })
        ⟨files, .dict folds, outdir, []⟩ with
    | .error e => .err e files []
    | .ok st1 =>
      match getFoldsStep fs tmp "train" (fun d => d.train) (fun f v => { f with train := v }) st1 with
      | .error e => .err e st1.files st1.actions
      | .ok st2 =>
        match getFoldsStep fs tmp "test" (fun d => d.test) (fun f v => { f with test := v }) st2 with
        | .error e => .err e st2.files st2.actions
        | .ok st3 => .ok st3.files st3.actions

/-- Did `getFolds` raise the devel/test-input assertion? -/
def isAssertErr : FoldOutcome → Bool
  | .err .assertionError _ _ => true
  | _ => false

/-- The derived devel output path produced by the first `getFolds` loop
iteration for output directory `d` and fold labels `labels`. -/
def develFoldOut (d : String) (labels : List String) : String :=
  pathJoin d ("devel-" ++ foldIdString labels ++ ".xml")

/-! ## Working-directory setup (`workdir`, train.py lines 226-252) -/

/-- The filesystem / process effects of `workdir`, in order. -/
inductive WdAction
  | rmtree (p : String)
  | makedirs (p : String)
  | copytree (src : Option String) (dst : String)
  | useExisting (p : String)
  | registerAtexitRestore
  | chdir (p : String)
  | openLog (l : String)
  | noLogging
deriving DecidableEq

/-- `workdir` (lines 226-252) as its ordered action trace.  `fs` is the
pre-call existence oracle.  `optionsCopyFrom` is the module-global
`options.copyFrom`, which line 241 uses as the copy source (in the
command-line entry point it carries the same value as the `copyFrom`
parameter). -/
def workdir (fs : String → Bool) (path : String) (deleteIfExists : Bool)
    (copyFrom optionsCopyFrom : Option String) (log : Option String) : List WdAction :=
  let del := if copyFrom ≠ none then true else deleteIfExists
  let removed := fs path && del
  let acts1 := if removed then [WdAction.rmtree path] else []
  let existsNow := fs path && !removed
  let acts2 :=
    if existsNow then [WdAction.useExisting path]
    else
      match copyFrom with
      | none => [WdAction.makedirs path]
      | some _ => [WdAction.copytree optionsCopyFrom path]
  acts1 ++ acts2 ++ [WdAction.registerAtexitRestore, WdAction.chdir path] ++
    (match log with | some l => [WdAction.openLog l] | none => [WdAction.noLogging])

/-! ## Phase slices of `train` (train.py lines 119-136) -/

/-- The call `getEmptyCorpus(develInput, removeNames=...)` made by the
EMPTY phase (line 125). -/
structure EmptyCall where
  input : Option String
  removeNames : Bool
deriving DecidableEq

/-- The EMPTY phase (lines 119-125): when selected, it classifies the
emptied devel input, stripping entity names exactly when the resolver's
`removeNamesFromEmpty` output is set. -/
def trainEmptyPhase (checkEMPTY : Bool) (develInput : Option String)
    (removeNamesFromEmpty : Bool) : Option EmptyCall :=
  if checkEMPTY then some ⟨develInput, removeNamesFromEmpty⟩ else none

/-- What the TEST phase did. -/
inductive TestPhaseResult
  | notRun
  | skipped (testFile : Option String)
  | classified (testFile : String) (model : Option String) (comparedToDevel : Bool)
deriving DecidableEq

/-- The TEST phase (lines 126-136): when selected, a missing or
non-existing test file is only logged as a skip; otherwise the test set
is classified and, when the ST parameters request conversion, the test
archive is compared against the devel archive. -/
def trainTestPhase (checkTEST : Bool) (fs : String → Bool) (testFile : Option String)
    (testModel : Option String) (stConvert : Bool) : TestPhaseResult :=
  if checkTEST then
    match testFile with
    | none => .skipped none
    | some f => if fs f then .classified f testModel stConvert else .skipped (some f)
  else .notRun

/-! ## Concrete instances used by the closed theorems -/

/-- An input-file dictionary with no entries set. -/
def noFiles : InputFiles := ⟨none, none, none⟩

/-- An example-style dictionary with no overrides. -/
def noStyles : ExampleStyles := ⟨none, none, none, none, none⟩

/-- A classifier-parameter dictionary with no overrides. -/
def noClsParams : ClassifierParams := ⟨none, none, none, none, none, none⟩

/-- Task resolution for `BI11-FULL` with no caller overrides. -/
def bi11FullNoOverrides : Except String TaskSettings :=
  getTaskSettings "corpora" (some "BI11-FULL") none none none false none none
    noFiles noStyles noClsParams

/-- The resolved settings for `BI11-FULL` with no caller overrides. -/
def bi11FullResolved : TaskSettings :=
  resolveTask "corpora" "BI11-FULL" 2 none none none false none none
    noFiles noStyles noClsParams

/-- The unmerging toggle that task resolution assigns for task `t` when
the caller left it unset, supplied no detector and the detector is
multi-stage. -/
def resolvedUnmergingDefault (t : String) : Option Bool :=
  match getTaskSettings "corpora" (some t) none none none false none none
      noFiles noStyles noClsParams with
  | .ok out => out.processUnmerging
  | .error _ => none

/-- An example-style dictionary with every slot overridden. -/
def ovStyles : ExampleStyles :=
  ⟨some "exS", some "trigS", some "edgeS", some "unmS", some "modS"⟩

/-- A classifier-parameter dictionary with every slot overridden. -/
def ovClsParams : ClassifierParams :=
  ⟨some "exP", some "trigP", some "recP", some "edgeP", some "unmP", some "modP"⟩

/-- The resolved settings for `GE11` with every slot overridden. -/
def ge11Overridden : TaskSettings :=
  resolveTask "corpora" "GE11" 2 (some "Detectors.EventDetector") none none false
    (some "stOv") (some "ppOv") noFiles ovStyles ovClsParams

/-- The resolved settings for `GE09` with no overrides and an explicit
multi-stage detector. -/
def ge09Defaults : TaskSettings :=
  resolveTask "corpora" "GE09" 2 (some "Detectors.EventDetector") none none false
    none none noFiles noStyles noClsParams

/-- The resolved settings for `BI11-FULL` with a caller-supplied trigger
example style. -/
def bi11FullTriggerOverridden : TaskSettings :=
  resolveTask "corpora" "BI11-FULL" 2 none none none false none none
    noFiles ⟨none, some "custom_trigger_style", none, none, none⟩ noClsParams

/-- A step specification in which two main steps claim the resume point. -/
def stepsTwoMarked : StepSpec := ⟨.fromStart, .fromSub "models", .unset, .unset⟩

/-- A step specification in which only DEVEL claims the resume point. -/
def stepsOneMarked : StepSpec := ⟨.unset, .fromStart, .unset, .unset⟩

/-- A step specification with no resume point. -/
def stepsNoneMarked : StepSpec := ⟨.unset, .unset, .unset, .unset⟩

/-- A step specification in which exactly one main step is marked, with a
list of substeps as its value. -/
def stepsListMarked : StepSpec := ⟨.fromList ["sub1", "sub2"], .unset, .unset, .unset⟩

/-- An omit specification with no omissions. -/
def omitNothing : OmitSpec := ⟨.unset, .unset, .unset, .unset⟩

/-- An existence oracle for an empty filesystem. -/
def fsNone : String → Bool := fun _ => false

/-- An existence oracle on which every path exists. -/
def fsAll : String → Bool := fun _ => true

/-! ## Helper lemmas -/

/-- A non-empty current value survives default layering. -/
theorem cat_set {f s : String} (h : s ≠ "") : Parameters.cat f (some s) = some s := by
  simp [Parameters.cat, h]

/-- A set slot survives default layering. -/
theorem cat_isSet {f : String} {o : Option String} (h : IsSet o) : Parameters.cat f o = o := by
  obtain ⟨s, rfl, hs⟩ := h
  exact cat_set hs

/-- Evaluation-parameter defaults never replace a set slot. -/
theorem resolveSTParams_pres {t : String} {bst : Option String} (h : IsSet bst) :
    resolveSTParams t bst = bst := by
  unfold resolveSTParams
  split_ifs <;> (repeat rw [cat_isSet h]) <;> try rfl

/-- The edge-style defaults leave the `examples` slot unchanged. -/
theorem edgeStyle_examples {t : String} {sub : Nat} {es : ExampleStyles} :
    (resolveEdgeStyle t sub es).examples = es.examples := by
  unfold resolveEdgeStyle
  split_ifs <;> rfl

/-- The edge-style defaults leave the `trigger` slot unchanged. -/
theorem edgeStyle_trigger {t : String} {sub : Nat} {es : ExampleStyles} :
    (resolveEdgeStyle t sub es).trigger = es.trigger := by
  unfold resolveEdgeStyle
  split_ifs <;> rfl

/-- The edge-style defaults leave the `unmerging` slot unchanged. -/
theorem edgeStyle_unmerging {t : String} {sub : Nat} {es : ExampleStyles} :
    (resolveEdgeStyle t sub es).unmerging = es.unmerging := by
  unfold resolveEdgeStyle
  split_ifs <;> rfl

/-- The edge-style defaults leave the `modifiers` slot unchanged. -/
theorem edgeStyle_modifiers {t : String} {sub : Nat} {es : ExampleStyles} :
    (resolveEdgeStyle t sub es).modifiers = es.modifiers := by
  unfold resolveEdgeStyle
  split_ifs <;> rfl

/-- The edge-style defaults never replace a set `edge` slot. -/
theorem edgeStyle_edge_pres {t : String} {sub : Nat} {es : ExampleStyles}
    (h : IsSet es.edge) : (resolveEdgeStyle t sub es).edge = es.edge := by
  unfold resolveEdgeStyle
  split_ifs <;> (repeat rw [cat_isSet h]) <;> try rfl

/-- The trigger-style defaults leave the `examples` slot unchanged. -/
theorem trigStyle_examples {t : String} {sub : Nat} {es : ExampleStyles} :
    (resolveTriggerStyle t sub es).examples = es.examples := by
  unfold resolveTriggerStyle
  split_ifs <;> rfl

/-- The trigger-style defaults leave the `edge` slot unchanged. -/
theorem trigStyle_edge {t : String} {sub : Nat} {es : ExampleStyles} :
    (resolveTriggerStyle t sub es).edge = es.edge := by
  unfold resolveTriggerStyle
  split_ifs <;> rfl

/-- The trigger-style defaults leave the `unmerging` slot unchanged. -/
theorem trigStyle_unmerging {t : String} {sub : Nat} {es : ExampleStyles} :
    (resolveTriggerStyle t sub es).unmerging = es.unmerging := by
  unfold resolveTriggerStyle
  split_ifs <;> rfl

/-- The trigger-style defaults leave the `modifiers` slot unchanged. -/
theorem trigStyle_modifiers {t : String} {sub : Nat} {es : ExampleStyles} :
    (resolveTriggerStyle t sub es).modifiers = es.modifiers := by
  unfold resolveTriggerStyle
  split_ifs <;> rfl

/-- Away from `BI11-FULL` / `DDI11-FULL`, the trigger-style defaults
never replace a set `trigger` slot. -/
theorem trigStyle_trigger_pres {t : String} {sub : Nat} {es : ExampleStyles}
    (h : IsSet es.trigger) (hmem : memStr t ["BI11-FULL", "DDI11-FULL"] = false) :
    (resolveTriggerStyle t sub es).trigger = es.trigger := by
  unfold resolveTriggerStyle
  split_ifs <;> (repeat rw [cat_isSet h]) <;> first | rfl | simp_all

/-- The unmerging-style default only writes the `unmerging` slot. -/
theorem unmStyle_examples {es : ExampleStyles} :
    (resolveUnmergingStyle es).examples = es.examples := rfl

/-- The unmerging-style default leaves the `trigger` slot unchanged. -/
theorem unmStyle_trigger {es : ExampleStyles} :
    (resolveUnmergingStyle es).trigger = es.trigger := rfl

/-- The unmerging-style default leaves the `edge` slot unchanged. -/
theorem unmStyle_edge {es : ExampleStyles} :
    (resolveUnmergingStyle es).edge = es.edge := rfl

/-- The unmerging-style default leaves the `modifiers` slot unchanged. -/
theorem unmStyle_modifiers {es : ExampleStyles} :
    (resolveUnmergingStyle es).modifiers = es.modifiers := rfl

/-- The unmerging-style default never replaces a set `unmerging` slot. -/
theorem unmStyle_unmerging_pres {es : ExampleStyles} (h : IsSet es.unmerging) :
    (resolveUnmergingStyle es).unmerging = es.unmerging := by
  unfold resolveUnmergingStyle
  rw [cat_isSet h]

/-- The single-stage style defaults leave the `trigger` slot unchanged. -/
theorem ssStyles_trigger {t : String} {es : ExampleStyles} :
    (resolveSingleStageStyles t es).trigger = es.trigger := by
  unfold resolveSingleStageStyles
  split_ifs <;> rfl

/-- The single-stage style defaults leave the `edge` slot unchanged. -/
theorem ssStyles_edge {t : String} {es : ExampleStyles} :
    (resolveSingleStageStyles t es).edge = es.edge := by
  unfold resolveSingleStageStyles
  split_ifs <;> rfl

/-- The single-stage style defaults leave the `unmerging` slot unchanged. -/
theorem ssStyles_unmerging {t : String} {es : ExampleStyles} :
    (resolveSingleStageStyles t es).unmerging = es.unmerging := by
  unfold resolveSingleStageStyles
  split_ifs <;> rfl

/-- The single-stage style defaults leave the `modifiers` slot unchanged. -/
theorem ssStyles_modifiers {t : String} {es : ExampleStyles} :
    (resolveSingleStageStyles t es).modifiers = es.modifiers := by
  unfold resolveSingleStageStyles
  split_ifs <;> rfl

/-- The single-stage style defaults never replace a set `examples` slot. -/
theorem ssStyles_examples_pres {t : String} {es : ExampleStyles}
    (h : IsSet es.examples) : (resolveSingleStageStyles t es).examples = es.examples := by
  unfold resolveSingleStageStyles
  split_ifs <;> (repeat rw [cat_isSet h]) <;> try rfl

/-- Style defaults never replace a set `examples` slot. -/
theorem styles_examples_pres {t : String} {sub : Nat} {iss : Bool} {es : ExampleStyles}
    (h : IsSet es.examples) : (resolveExampleStyles t sub iss es).examples = es.examples := by
  cases iss with
  | true =>
    show (resolveSingleStageStyles t es).examples = es.examples
    exact ssStyles_examples_pres h
  | false =>
    show (resolveUnmergingStyle (resolveTriggerStyle t sub
      (resolveEdgeStyle t sub es))).examples = es.examples
    rw [unmStyle_examples, trigStyle_examples, edgeStyle_examples]

/-- Style defaults never replace a set `edge` slot. -/
theorem styles_edge_pres {t : String} {sub : Nat} {iss : Bool} {es : ExampleStyles}
    (h : IsSet es.edge) : (resolveExampleStyles t sub iss es).edge = es.edge := by
  cases iss with
  | true =>
    show (resolveSingleStageStyles t es).edge = es.edge
    exact ssStyles_edge
  | false =>
    show (resolveUnmergingStyle (resolveTriggerStyle t sub
      (resolveEdgeStyle t sub es))).edge = es.edge
    rw [unmStyle_edge, trigStyle_edge, edgeStyle_edge_pres h]

/-- Style defaults never replace a set `unmerging` slot. -/
theorem styles_unmerging_pres {t : String} {sub : Nat} {iss : Bool} {es : ExampleStyles}
    (h : IsSet es.unmerging) : (resolveExampleStyles t sub iss es).unmerging = es.unmerging := by
  cases iss with
  | true =>
    show (resolveSingleStageStyles t es).unmerging = es.unmerging
    exact ssStyles_unmerging
  | false =>
    show (resolveUnmergingStyle (resolveTriggerStyle t sub
      (resolveEdgeStyle t sub es))).unmerging = es.unmerging
    have h2 : IsSet (resolveTriggerStyle t sub (resolveEdgeStyle t sub es)).unmerging := by
      rw [trigStyle_unmerging, edgeStyle_unmerging]
      exact h
    rw [unmStyle_unmerging_pres h2, trigStyle_unmerging, edgeStyle_unmerging]

/-- Style defaults never touch the `modifiers` slot. -/
theorem styles_modifiers_pres {t : String} {sub : Nat} {iss : Bool} {es : ExampleStyles} :
    (resolveExampleStyles t sub iss es).modifiers = es.modifiers := by
  cases iss with
  | true =>
    show (resolveSingleStageStyles t es).modifiers = es.modifiers
    exact ssStyles_modifiers
  | false =>
    show (resolveUnmergingStyle (resolveTriggerStyle t sub
      (resolveEdgeStyle t sub es))).modifiers = es.modifiers
    rw [unmStyle_modifiers, trigStyle_modifiers, edgeStyle_modifiers]

/-- Style defaults never replace a set `trigger` slot, except in the
direct assignment for multi-stage `BI11-FULL` / `DDI11-FULL`. -/
theorem styles_trigger_pres {t : String} {sub : Nat} {iss : Bool} {es : ExampleStyles}
    (h : IsSet es.trigger)
    (hex : ¬ (memStr t ["BI11-FULL", "DDI11-FULL"] = true ∧ iss = false)) :
    (resolveExampleStyles t sub iss es).trigger = es.trigger := by
  cases iss with
  | true =>
    show (resolveSingleStageStyles t es).trigger = es.trigger
    exact ssStyles_trigger
  | false =>
    have hmem : memStr t ["BI11-FULL", "DDI11-FULL"] = false := by
      cases hm : memStr t ["BI11-FULL", "DDI11-FULL"] with
      | true => exact absurd ⟨hm, rfl⟩ hex
      | false => rfl
    show (resolveUnmergingStyle (resolveTriggerStyle t sub
      (resolveEdgeStyle t sub es))).trigger = es.trigger
    have h2 : IsSet (resolveEdgeStyle t sub es).trigger := by
      rw [edgeStyle_trigger]
      exact h
    rw [unmStyle_trigger, trigStyle_trigger_pres h2 hmem, edgeStyle_trigger]

/-- Classifier defaults never replace a set `examples` slot. -/
theorem params_examples_pres {t : String} {iss : Bool} {cp : ClassifierParams}
    (h : IsSet cp.examples) : (resolveClassifierParams t iss cp).examples = cp.examples := by
  unfold resolveClassifierParams resolveSingleStageParams resolveTriggerParams
    resolveRecallParams resolveEdgeParams resolveUnmergingParams resolveModifiersParams
  split_ifs <;> (dsimp only; repeat rw [cat_isSet h]) <;> try rfl

/-- Classifier defaults never replace a set `trigger` slot. -/
theorem params_trigger_pres {t : String} {iss : Bool} {cp : ClassifierParams}
    (h : IsSet cp.trigger) : (resolveClassifierParams t iss cp).trigger = cp.trigger := by
  unfold resolveClassifierParams resolveSingleStageParams resolveTriggerParams
    resolveRecallParams resolveEdgeParams resolveUnmergingParams resolveModifiersParams
  split_ifs <;> (dsimp only; repeat rw [cat_isSet h]) <;> try rfl

/-- Classifier defaults never replace a set recall-adjustment slot. -/
theorem params_recall_pres {t : String} {iss : Bool} {cp : ClassifierParams}
    (h : IsSet cp.recallAdjust) :
    (resolveClassifierParams t iss cp).recallAdjust = cp.recallAdjust := by
  unfold resolveClassifierParams resolveSingleStageParams resolveTriggerParams
    resolveRecallParams resolveEdgeParams resolveUnmergingParams resolveModifiersParams
  split_ifs <;> (dsimp only; repeat rw [cat_isSet h]) <;> try rfl

/-- Classifier defaults never replace a set `edge` slot. -/
theorem params_edge_pres {t : String} {iss : Bool} {cp : ClassifierParams}
    (h : IsSet cp.edge) : (resolveClassifierParams t iss cp).edge = cp.edge := by
  unfold resolveClassifierParams resolveSingleStageParams resolveTriggerParams
    resolveRecallParams resolveEdgeParams resolveUnmergingParams resolveModifiersParams
  split_ifs <;> (dsimp only; repeat rw [cat_isSet h]) <;> try rfl

/-- Classifier defaults never replace a set `unmerging` slot. -/
theorem params_unmerging_pres {t : String} {iss : Bool} {cp : ClassifierParams}
    (h : IsSet cp.unmerging) : (resolveClassifierParams t iss cp).unmerging = cp.unmerging := by
  unfold resolveClassifierParams resolveSingleStageParams resolveTriggerParams
    resolveRecallParams resolveEdgeParams resolveUnmergingParams resolveModifiersParams
  split_ifs <;> (dsimp only; repeat rw [cat_isSet h]) <;> try rfl

/-- Classifier defaults never replace a set `modifiers` slot. -/
theorem params_modifiers_pres {t : String} {iss : Bool} {cp : ClassifierParams}
    (h : IsSet cp.modifiers) : (resolveClassifierParams t iss cp).modifiers = cp.modifiers := by
  unfold resolveClassifierParams resolveSingleStageParams resolveTriggerParams
    resolveRecallParams resolveEdgeParams resolveUnmergingParams resolveModifiersParams
  split_ifs <;> (dsimp only; repeat rw [cat_isSet h]) <;> try rfl

/-- A successful `getTaskSettings` call either had no task and returned
the inputs repackaged, or had a recognized task and returned the
`resolveTask` resolution. -/
theorem getTaskSettings_ok_inv {dataPath : String} {task det : Option String}
    {pu pm : Option Bool} {iss : Bool} {bst pp : Option String} {files : InputFiles}
    {es : ExampleStyles} {cp : ClassifierParams} {out : TaskSettings}
    (h : getTaskSettings dataPath task det pu pm iss bst pp files es cp = .ok out) :
    (task = none ∧ out = TaskSettings.build det pu pm iss bst pp files es cp) ∨
    (∃ t0 t1 sub, task = some t0 ∧ parseSubTask t0 = .ok (t1, sub) ∧
      memStr (strReplace t0 "-MINI" "") recognizedTasks = true ∧
      out = resolveTask dataPath t1 sub det pu pm iss bst pp files es cp) := by
  cases task with
  | none =>
    left
    refine ⟨rfl, ?_⟩
    simp only [getTaskSettings, Except.ok.injEq] at h
    exact h.symm
  | some t0 =>
    right
    simp only [getTaskSettings] at h
    split at h
    · cases hp : parseSubTask t0 with
      | ok ts =>
        rw [hp] at h
        simp only [Except.ok.injEq] at h
        exact ⟨t0, ts.1, ts.2, rfl, by simpa using hp, by assumption, h.symm⟩
      | error e => rw [hp] at h; simp at h
    · simp at h

/-- A successful sub-task parse keeps the pre-dot task identifier, so the
fully normalized identifier used by the resolver is `taskBase`. -/
theorem parseSubTask_base {t0 t1 : String} {n : Nat}
    (h : parseSubTask t0 = .ok (t1, n)) : strReplace t1 "-MINI" "" = taskBase t0 := by
  unfold parseSubTask at h
  unfold taskBase
  split at h
  · next hlen =>
    split at h
    · simp at h
    · split at h
      · simp only [Except.ok.injEq, Prod.mk.injEq] at h
        rw [← h.1, if_pos hlen]
      · simp at h
  · next hlen =>
    simp only [Except.ok.injEq, Prod.mk.injEq] at h
    rw [← h.1, if_neg hlen]

/-- `removeNamesCheck` holds exactly when the stage-relevant style is set
and mentions the `names` flag. -/
theorem removeNamesCheck_iff (iss : Bool) (es : ExampleStyles) :
    removeNamesCheck iss es = true ↔
      ∃ s, (if iss then es.examples else es.trigger) = some s ∧ strIn "names" s = true := by
  cases iss <;> cases h1 : es.examples <;> cases h2 : es.trigger <;>
    simp [removeNamesCheck, styleHasNames, h1, h2]

/-- `getFoldsStep` can only raise `TypeError`. -/
theorem getFoldsStep_error_typeError {fs : String → Bool} {tmp dataset : String}
    {getFold : FoldsParams → Option FoldSpec} {setFile : InputFiles → Option String → InputFiles}
    {st : FoldLoopState} {e : PyError}
    (h : getFoldsStep fs tmp dataset getFold setFile st = .error e) : e = PyError.typeError := by
  unfold getFoldsStep at h
  split at h
  · simp only [Except.error.injEq] at h
    exact h.symm
  · split at h <;> simp at h

/-! ## Claim theorems -/

/-- C1 (amended): after task-default resolution, every configuration slot
the caller set to a non-empty value still holds the caller's value — for
every slot of the evaluation (BioNLP ST), preprocessing, example-style and
classifier-parameter bundles — except the trigger example style, which
the code assigns unconditionally (discarding any override) for the
multi-stage tasks `BI11-FULL` and `DDI11-FULL`. -/
theorem c1_override_precedence_amended
    (dataPath : String) (task det : Option String) (pu pm : Option Bool) (iss : Bool)
    (bst pp : Option String) (files : InputFiles) (es : ExampleStyles)
    (cp : ClassifierParams) (out : TaskSettings)
    (h : getTaskSettings dataPath task det pu pm iss bst pp files es cp = .ok out) :
    (IsSet bst → out.bioNLPSTParams = bst) ∧
    (IsSet pp → out.preprocessorParams = pp) ∧
    (IsSet es.examples → out.exampleStyles.examples = es.examples) ∧
    (IsSet es.edge → out.exampleStyles.edge = es.edge) ∧
    (IsSet es.unmerging → out.exampleStyles.unmerging = es.unmerging) ∧
    (IsSet es.modifiers → out.exampleStyles.modifiers = es.modifiers) ∧
    (IsSet es.trigger →
      (∀ t0, task = some t0 →
        ¬ (memStr (taskBase t0) ["BI11-FULL", "DDI11-FULL"] = true ∧
           out.isSingleStage = false)) →
      out.exampleStyles.trigger = es.trigger) ∧
    (IsSet cp.examples → out.classifierParameters.examples = cp.examples) ∧
    (IsSet cp.trigger → out.classifierParameters.trigger = cp.trigger) ∧
    (IsSet cp.recallAdjust → out.classifierParameters.recallAdjust = cp.recallAdjust) ∧
    (IsSet cp.edge → out.classifierParameters.edge = cp.edge) ∧
    (IsSet cp.unmerging → out.classifierParameters.unmerging = cp.unmerging) ∧
    (IsSet cp.modifiers → out.classifierParameters.modifiers = cp.modifiers) := by
  rcases getTaskSettings_ok_inv h with ⟨rfl, rfl⟩ | ⟨t0, t1, sub, rfl, hp, hrec, rfl⟩
  · exact ⟨fun _ => rfl, fun _ => rfl, fun _ => rfl, fun _ => rfl, fun _ => rfl,
      fun _ => rfl, fun _ _ => rfl, fun _ => rfl, fun _ => rfl, fun _ => rfl,
      fun _ => rfl, fun _ => rfl, fun _ => rfl⟩
  · refine ⟨fun h1 => ?_, fun _ => rfl, fun h1 => ?_, fun h1 => ?_, fun h1 => ?_,
      fun _ => ?_, fun h1 h2 => ?_, fun h1 => ?_, fun h1 => ?_, fun h1 => ?_,
      fun h1 => ?_, fun h1 => ?_, fun h1 => ?_⟩
    · exact resolveSTParams_pres h1
    · exact styles_examples_pres h1
    · exact styles_edge_pres h1
    · exact styles_unmerging_pres h1
    · exact styles_modifiers_pres
    · have hex := h2 t0 rfl
      rw [← parseSubTask_base hp] at hex
      exact styles_trigger_pres h1 hex
    · exact params_examples_pres h1
    · exact params_trigger_pres h1
    · exact params_recall_pres h1
    · exact params_edge_pres h1
    · exact params_unmerging_pres h1
    · exact params_modifiers_pres h1

/-- C1 witness: a concrete multi-stage GE11 run with every slot
overridden keeps each override. -/
theorem c1_override_precedence_amended_witness :
    getTaskSettings "corpora" (some "GE11") (some "Detectors.EventDetector") none none false
      (some "stOv") (some "ppOv") noFiles ovStyles ovClsParams = .ok ge11Overridden ∧
    ge11Overridden.bioNLPSTParams = some "stOv" ∧
    ge11Overridden.exampleStyles.trigger = some "trigS" ∧
    ge11Overridden.exampleStyles.edge = some "edgeS" ∧
    ge11Overridden.classifierParameters.recallAdjust = some "recP" := by
  have H := c1_override_precedence_amended "corpora" (some "GE11")
    (some "Detectors.EventDetector") none none false (some "stOv") (some "ppOv")
    noFiles ovStyles ovClsParams ge11Overridden rfl
  refine ⟨rfl, H.1 ⟨"stOv", rfl, by decide⟩, ?_, ?_, ?_⟩
  · exact H.2.2.2.2.2.2.1 ⟨"trigS", rfl, by decide⟩
      (fun t0 ht => by injection ht with h3; subst h3; decide)
  · exact H.2.2.2.1 ⟨"edgeS", rfl, by decide⟩
  · exact H.2.2.2.2.2.2.2.2.2.1 ⟨"recP", rfl, by decide⟩

/-- C1 counterexample: for task `BI11-FULL` a caller-supplied non-empty
trigger example style is replaced by the hard-coded task default, so
override precedence does not hold for that slot. -/
theorem c1_trigger_override_replaced :
    getTaskSettings "corpora" (some "BI11-FULL") none none none false none none
      noFiles ⟨none, some "custom_trigger_style", none, none, none⟩ noClsParams =
      .ok bi11FullTriggerOverridden ∧
    bi11FullTriggerOverridden.exampleStyles.trigger = some "build_for_nameless:names" ∧
    some "build_for_nameless:names" ≠ some "custom_trigger_style" :=
  ⟨rfl, rfl, by decide⟩

/-- C2: resolving `BI11-FULL` with no overrides yields evaluation
(BioNLP ST) parameters exactly `convert:scores`, but the resolved
preprocessing parameters stay unset: the source computes the
`intermediateFiles:omitSteps=NER,DIVIDE-SETS` fragment at line 333 and
discards it (the `Parameters.cat` result is never assigned), so the
fragment is not applied to the preprocessor bundle. -/
theorem c2_bi11full_resolution_eval :
    bi11FullNoOverrides.map (fun out => (out.bioNLPSTParams, out.preprocessorParams)) =
      .ok (some "convert:scores", none) := rfl

/-- C6 (amended): with the unmerging toggle unset and a multi-stage
detector, task resolution defaults it to `false` exactly on the five
tasks CO11, REL11, BB11, BI11-FULL, DDI11-FULL and to `true` on every
other recognized task; with the modifier toggle unset, it defaults to
`true` exactly on GE11, EPI11, ID11. -/
theorem c6_toggle_defaults_amended
    (dataPath t0 : String) (det : Option String) (pu pm : Option Bool) (iss : Bool)
    (bst pp : Option String) (files : InputFiles) (es : ExampleStyles)
    (cp : ClassifierParams) (out : TaskSettings)
    (h : getTaskSettings dataPath (some t0) det pu pm iss bst pp files es cp = .ok out) :
    (pu = none → out.isSingleStage = false →
      out.processUnmerging =
        some (!memStr (taskBase t0) ["CO11", "REL11", "BB11", "BI11-FULL", "DDI11-FULL"])) ∧
    (pm = none →
      out.processModifiers = some (memStr (taskBase t0) ["GE11", "EPI11", "ID11"])) := by
  rcases getTaskSettings_ok_inv h with ⟨hnone, _⟩ | ⟨t0x, t1, sub, hsome, hp, hrec, rfl⟩
  · exact absurd hnone (by simp)
  · injection hsome with h3
    subst h3
    constructor
    · intro hpu hiss
      rw [← parseSubTask_base hp]
      have hiss2 : (resolveDetector (strReplace t1 "-MINI" "") det iss).2 = false := hiss
      have e1 : (resolveTask dataPath t1 sub det pu pm iss bst pp files es cp).processUnmerging =
          resolveUnmergingToggle (strReplace t1 "-MINI" "") pu
            ((resolveDetector (strReplace t1 "-MINI" "") det iss).2) := rfl
      rw [e1]
      unfold resolveUnmergingToggle
      rw [if_pos ⟨hpu, hiss2⟩]
    · intro hpm
      rw [← parseSubTask_base hp]
      have e2 : (resolveTask dataPath t1 sub det pu pm iss bst pp files es cp).processModifiers =
          resolveModifiersToggle (strReplace t1 "-MINI" "") pm := rfl
      rw [e2]
      unfold resolveModifiersToggle
      rw [if_pos hpm]

/-- C6 witness: for task GE09 (multi-stage, toggles unset) the unmerging
toggle defaults to true and the modifier toggle to false. -/
theorem c6_toggle_defaults_amended_witness :
    getTaskSettings "corpora" (some "GE09") (some "Detectors.EventDetector") none none false
      none none noFiles noStyles noClsParams = .ok ge09Defaults ∧
    ge09Defaults.isSingleStage = false ∧
    ge09Defaults.processUnmerging = some true ∧
    ge09Defaults.processModifiers = some false := by
  have H := c6_toggle_defaults_amended "corpora" "GE09" (some "Detectors.EventDetector")
    none none false none none noFiles noStyles noClsParams ge09Defaults rfl
  refine ⟨rfl, rfl, ?_, ?_⟩
  · exact (H.1 rfl rfl).trans (by decide)
  · exact (H.2 rfl).trans (by decide)

/-- C6 counterexample: five pairwise-distinct recognized tasks — not
four — receive `false` as the unmerging default, refuting "except exactly
four named tasks". -/
theorem c6_unmerging_default_counterexample :
    resolvedUnmergingDefault "CO11" = some false ∧
    resolvedUnmergingDefault "REL11" = some false ∧
    resolvedUnmergingDefault "BB11" = some false ∧
    resolvedUnmergingDefault "BI11-FULL" = some false ∧
    resolvedUnmergingDefault "DDI11-FULL" = some false ∧
    List.Nodup ["CO11", "REL11", "BB11", "BI11-FULL", "DDI11-FULL"] :=
  ⟨rfl, rfl, rfl, rfl, rfl, by decide⟩

/-- C7: the resolver's `removeNamesFromEmpty` output is true exactly when
the resolved example style of the stage-relevant slot (`examples` when
single-stage, `trigger` otherwise) is set and contains the `names` flag,
and the EMPTY phase passes exactly this flag to `getEmptyCorpus` as
`removeNames`. -/
theorem c7_remove_names_iff
    (dataPath : String) (task det : Option String) (pu pm : Option Bool) (iss : Bool)
    (bst pp : Option String) (files : InputFiles) (es : ExampleStyles)
    (cp : ClassifierParams) (out : TaskSettings)
    (h : getTaskSettings dataPath task det pu pm iss bst pp files es cp = .ok out) :
    (out.removeNamesFromEmpty = true ↔
      ∃ s, (if out.isSingleStage then out.exampleStyles.examples
            else out.exampleStyles.trigger) = some s ∧ strIn "names" s = true) ∧
    trainEmptyPhase true out.inputFiles.devel out.removeNamesFromEmpty =
      some ⟨out.inputFiles.devel, out.removeNamesFromEmpty⟩ := by
  refine ⟨?_, rfl⟩
  have hrn : out.removeNamesFromEmpty =
      removeNamesCheck out.isSingleStage out.exampleStyles := by
    rcases getTaskSettings_ok_inv h with ⟨_, rfl⟩ | ⟨t0, t1, sub, _, _, _, rfl⟩ <;> rfl
  rw [hrn]
  exact removeNamesCheck_iff _ _

/-- C7 witness: for `BI11-FULL` the resolved trigger style is
`build_for_nameless:names`, which contains `names`, so entity names are
stripped for the EMPTY phase. -/
theorem c7_remove_names_iff_witness :
    bi11FullNoOverrides = .ok bi11FullResolved ∧
    bi11FullResolved.removeNamesFromEmpty = true := by
  have H := c7_remove_names_iff "corpora" (some "BI11-FULL") none none none false none none
    noFiles noStyles noClsParams bi11FullResolved rfl
  exact ⟨rfl, H.1.mpr ⟨"build_for_nameless:names", rfl, rfl⟩⟩

/-- C3 counterexample: a step specification in which exactly one main
phase is marked, but with a list of substeps, fails the `no list
allowed` assertion (line 151) instead of succeeding — so "when at most
one phase is marked, construction succeeds" is false on the code. -/
theorem c3_list_substep_fails :
    (markedSteps stepsListMarked).length ≤ 1 ∧
    getSteps stepsListMarked omitNothing = .error "AssertionError: no list allowed" ∧
    getStepsFromStep stepsListMarked omitNothing = none :=
  ⟨by decide, rfl, rfl⟩

/-- C3 (amended): `getSteps` fails before any phase runs when more than
one of the four main phases claims the resume point, and also when a
marked phase carries a list of substeps (the `no list allowed` assertion
at line 151); when at most one phase is marked and no marked value is a
list, construction succeeds and the selector receives that single phase
(or none) as the resume step. -/
theorem c3_single_resume_point_amended (step : StepSpec) (omit0 : OmitSpec) :
    (2 ≤ (markedSteps step).length → getStepsFromStep step omit0 = none) ∧
    (listMarkedSteps step ≠ [] → getStepsFromStep step omit0 = none) ∧
    ((markedSteps step).length ≤ 1 → listMarkedSteps step = [] →
      getStepsFromStep step omit0 = some ((markedSteps step).head?)) := by
  refine ⟨?_, ?_, ?_⟩
  · intro h
    unfold getStepsFromStep getSteps
    rw [if_pos h]
  · intro h
    unfold getStepsFromStep getSteps
    by_cases h2 : 2 ≤ (markedSteps step).length
    · rw [if_pos h2]
    · rw [if_neg h2, if_pos h]
  · intro h1 h2
    have h3 : ¬ 2 ≤ (markedSteps step).length := by omega
    unfold getStepsFromStep getSteps
    rw [if_neg h3, if_neg (not_not_intro h2)]

/-- C3 witness: two marked phases fail; a single phase marked with a
plain substep (or the whole-phase flag) succeeds, resuming there; no
marked phase resumes from the start; a list-marked phase fails. -/
theorem c3_single_resume_point_amended_witness :
    2 ≤ (markedSteps stepsTwoMarked).length ∧
    getStepsFromStep stepsTwoMarked omitNothing = none ∧
    getStepsFromStep stepsListMarked omitNothing = none ∧
    (markedSteps stepsOneMarked).length ≤ 1 ∧
    listMarkedSteps stepsOneMarked = [] ∧
    getStepsFromStep stepsOneMarked omitNothing = some (some "DEVEL") ∧
    getStepsFromStep stepsNoneMarked omitNothing = some none := by
  refine ⟨by decide, ?_, ?_, by decide, by decide, ?_, ?_⟩
  · exact (c3_single_resume_point_amended stepsTwoMarked omitNothing).1 (by decide)
  · exact (c3_single_resume_point_amended stepsListMarked omitNothing).2.1 (by decide)
  · exact ((c3_single_resume_point_amended stepsOneMarked omitNothing).2.2 (by decide)
      (by decide)).trans (by decide)
  · exact ((c3_single_resume_point_amended stepsNoneMarked omitNothing).2.2 (by decide)
      (by decide)).trans (by decide)

/-- C5: with both fold lists given, fold materialization raises the
assertion — deriving nothing — when the devel or test input is already a
concrete path (neither unset nor the sentinel `"None"`); with devel and
test unset the precondition check passes. -/
theorem c5_fold_precondition (fs : String → Bool) (files : InputFiles)
    (folds : FoldsParams) (outdir : Option String) (tmp : String)
    (htr : folds.train ≠ none) (hdv : folds.devel ≠ none) :
    (((files.devel ≠ none ∧ files.devel ≠ some "None") ∨
      (files.test ≠ none ∧ files.test ≠ some "None")) →
      getFolds fs files folds outdir tmp = .err .assertionError files []) ∧
    (files.devel = none → files.test = none →
      isAssertErr (getFolds fs files folds outdir tmp) = false) := by
  constructor
  · intro hbad
    unfold getFolds
    rw [if_neg (fun hc => hc.elim htr hdv)]
    by_cases hdev : files.devel = none ∨ files.devel = some "None"
    · rcases hbad with ⟨h1, h2⟩ | ⟨h1, h2⟩
      · exact absurd hdev (fun hc => hc.elim h1 h2)
      · rw [if_neg (not_not_intro hdev), if_pos (fun hc => hc.elim h1 h2)]
    · rw [if_pos hdev]
  · intro h1 h2
    unfold getFolds
    rw [if_neg (fun hc => hc.elim htr hdv),
        if_neg (not_not_intro (Or.inl h1)), if_neg (not_not_intro (Or.inl h2))]
    cases hs1 : getFoldsStep fs tmp "devel" (fun d => d.devel)
        (fun f v => { f with devel := v }) ⟨files, .dict folds, outdir, []⟩ with
    | error e =>
      simp only [hs1]
      rw [getFoldsStep_error_typeError hs1]
      rfl
    | ok st1 =>
      simp only [hs1]
      cases hs2 : getFoldsStep fs tmp "train" (fun d => d.train)
          (fun f v => { f with train := v }) st1 with
      | error e =>
        simp only [hs2]
        rw [getFoldsStep_error_typeError hs2]
        rfl
      | ok st2 =>
        simp only [hs2]
        cases hs3 : getFoldsStep fs tmp "test" (fun d => d.test)
            (fun f v => { f with test := v }) st2 with
        | error e =>
          simp only [hs3]
          rw [getFoldsStep_error_typeError hs3]
          rfl
        | ok st3 =>
          simp only [hs3]
          rfl

/-- C5 witness: a set devel input makes the assertion fire with no
derived file; unset devel and test pass the check. -/
theorem c5_fold_precondition_witness :
    getFolds fsNone ⟨some "tr.xml", some "dv.xml", none⟩
        ⟨some (FoldSpec.list ["f1"]), some (FoldSpec.list ["f0"]), none⟩
        (some "training") "tmp" =
      .err .assertionError ⟨some "tr.xml", some "dv.xml", none⟩ [] ∧
    isAssertErr (getFolds fsNone ⟨some "tr.xml", none, none⟩
        ⟨some (FoldSpec.list ["f1"]), some (FoldSpec.list ["f0"]), none⟩
        (some "training") "tmp") = false := by
  constructor
  · exact (c5_fold_precondition fsNone ⟨some "tr.xml", some "dv.xml", none⟩
      ⟨some (FoldSpec.list ["f1"]), some (FoldSpec.list ["f0"]), none⟩
      (some "training") "tmp" (by decide) (by decide)).1
      (Or.inl ⟨by decide, by decide⟩)
  · exact (c5_fold_precondition fsNone ⟨some "tr.xml", none, none⟩
      ⟨some (FoldSpec.list ["f1"]), some (FoldSpec.list ["f0"]), none⟩
      (some "training") "tmp" (by decide) (by decide)).2 rfl rfl

/-- C4 (amended): in fold mode the derived devel filename joins the fold
labels with `_` in the order given (permutations give different names),
replaces every occurrence of `train` by `t`, and is derived from the
declared train source; the loop then reassigns its own `folds` variable,
so the second iteration raises `TypeError` and the train and test
datasets never receive derived outputs. -/
theorem c4_fold_filename_amended (fs : String → Bool) (files : InputFiles)
    (folds : FoldsParams) (d tmp : String) (spec : FoldSpec)
    (htr : folds.train ≠ none) (hdv : folds.devel = some spec)
    (h1 : files.devel = none) (h2 : files.test = none) :
    getFolds fs files folds (some d) tmp =
      .err .typeError { files with devel := some (develFoldOut d spec.labels) }
        (if fs (develFoldOut d spec.labels) then []
         else [FoldAction.getSubsetFold files.train (develFoldOut d spec.labels)
                 spec.labels]) := by
  have step1 : getFoldsStep fs tmp "devel" (fun x => x.devel)
      (fun f v => { f with devel := v }) ⟨files, .dict folds, some d, []⟩ =
      .ok ⟨{ files with devel := some (develFoldOut d spec.labels) },
           .val (some (FoldSpec.list spec.labels)), some d,
           [] ++ (if fs (develFoldOut d spec.labels) then []
                  else [FoldAction.getSubsetFold files.train (develFoldOut d spec.labels)
                          spec.labels])⟩ := by
    simp only [getFoldsStep]
    rw [hdv]
    rfl
  unfold getFolds
  rw [if_neg (by simp [htr, hdv]), if_neg (not_not_intro (Or.inl h1)),
      if_neg (not_not_intro (Or.inl h2)), step1]
  rfl

/-- C4 witness: the fold labels `["train", "f2"]` produce the devel cache
file `training/devel-t_f2.xml` from the declared train source, after
which the run raises `TypeError`. -/
theorem c4_fold_filename_amended_witness :
    develFoldOut "training" ["train", "f2"] = "training/devel-t_f2.xml" ∧
    getFolds fsNone ⟨some "tr.xml", none, none⟩
        ⟨some (FoldSpec.list ["f1"]), some (FoldSpec.list ["train", "f2"]), none⟩
        (some "training") "tmp" =
      .err .typeError ⟨some "tr.xml", some "training/devel-t_f2.xml", none⟩
        [FoldAction.getSubsetFold (some "tr.xml") "training/devel-t_f2.xml"
           ["train", "f2"]] := by
  refine ⟨rfl, ?_⟩
  have H := c4_fold_filename_amended fsNone ⟨some "tr.xml", none, none⟩
    ⟨some (FoldSpec.list ["f1"]), some (FoldSpec.list ["train", "f2"]), none⟩
    "training" "tmp" (FoldSpec.list ["train", "f2"]) (by decide) rfl rfl rfl
  exact H.trans (by decide)

/-- C4 counterexample: the same fold-label set in two different orders
yields two different devel cache filenames (no sorting), and the run
raises `TypeError` before the train and test datasets are derived — so
neither the order-insensitive-filename part nor the
all-three-datasets part of the claim holds. -/
theorem c4_fold_filename_counterexample :
    getFolds fsNone ⟨some "train.xml", none, none⟩
        ⟨some (FoldSpec.list ["f1"]), some (FoldSpec.list ["a", "b"]), none⟩
        (some "training") "tmp" =
      .err .typeError ⟨some "train.xml", some "training/devel-a_b.xml", none⟩
        [FoldAction.getSubsetFold (some "train.xml") "training/devel-a_b.xml" ["a", "b"]] ∧
    getFolds fsNone ⟨some "train.xml", none, none⟩
        ⟨some (FoldSpec.list ["f1"]), some (FoldSpec.list ["b", "a"]), none⟩
        (some "training") "tmp" =
      .err .typeError ⟨some "train.xml", some "training/devel-b_a.xml", none⟩
        [FoldAction.getSubsetFold (some "train.xml") "training/devel-b_a.xml" ["b", "a"]] ∧
    ("training/devel-a_b.xml" : String) ≠ "training/devel-b_a.xml" :=
  ⟨rfl, rfl, by decide⟩

/-- C8: a subset request with fraction `0.5`, seed `0` on a source with
basename `corpus.xml` and output directory `training` derives exactly
`training/subset_0.5_0_corpus.xml`; in general the derived name encodes
the effective fraction (the per-dataset one, falling back to `all`), the
seed and the source basename, and the `getSubset` recomputation happens
exactly when that file does not already exist. -/
theorem c8_subset_filename :
    (getSubsets fsNone ⟨some "data/corpus.xml", none, none⟩
        ⟨some "0.5", none, none, none, "0"⟩ (some "training") "tmpdir" =
      (⟨some "training/subset_0.5_0_corpus.xml", none, none⟩,
       [SubAction.getSubset "data/corpus.xml" "training/subset_0.5_0_corpus.xml"
          "0.5" "0"])) ∧
    (∀ (fs : String → Bool) (tmp seed : String) (allFrac : Option String) (f fr d : String),
      f ≠ "None" →
      subsetStep fs tmp seed allFrac (some f) (some fr) (some d) =
        (some (subsetOutName d fr seed f), some d,
         if fs (subsetOutName d fr seed f) then []
         else [SubAction.getSubset f (subsetOutName d fr seed f) fr seed])) ∧
    (∀ (fs : String → Bool) (tmp seed af f d : String),
      f ≠ "None" →
      subsetStep fs tmp seed (some af) (some f) none (some d) =
        (some (subsetOutName d af seed f), some d,
         if fs (subsetOutName d af seed f) then []
         else [SubAction.getSubset f (subsetOutName d af seed f) af seed])) := by
  refine ⟨rfl, ?_, ?_⟩
  · intro fs tmp seed allFrac f fr d hf
    simp only [subsetStep]
    rw [if_neg hf, if_neg (by simp)]
  · intro fs tmp seed af f d hf
    simp only [subsetStep]
    rw [if_neg hf, if_neg (by simp)]
    rfl

/-- C8 witness: the per-dataset materialization at fraction `0.5`,
seed `0`, source `corpus.xml`, directory `training`. -/
theorem c8_subset_filename_witness :
    ("corpus.xml" : String) ≠ "None" ∧
    subsetStep fsNone "tmpdir" "0" none (some "corpus.xml") (some "0.5") (some "training") =
      (some "training/subset_0.5_0_corpus.xml", some "training",
       [SubAction.getSubset "corpus.xml" "training/subset_0.5_0_corpus.xml" "0.5" "0"]) := by
  refine ⟨by decide, ?_⟩
  exact (c8_subset_filename.2.1 fsNone "tmpdir" "0" none "corpus.xml" "0.5" "training"
    (by decide)).trans (by decide)

/-- C9: when the TEST phase is selected but the configured test file is
unset or does not exist, the phase only logs a skip — it neither invokes
classification nor fails. -/
theorem c9_test_skip (fs : String → Bool) (testFile testModel : Option String)
    (stConvert : Bool)
    (hmiss : testFile = none ∨ ∀ f, testFile = some f → fs f = false) :
    trainTestPhase true fs testFile testModel stConvert = .skipped testFile ∧
    ∀ f m c, trainTestPhase true fs testFile testModel stConvert ≠ .classified f m c := by
  have hres : trainTestPhase true fs testFile testModel stConvert = .skipped testFile := by
    cases testFile with
    | none => rfl
    | some f =>
      rcases hmiss with h | h
      · simp at h
      · have hf := h f rfl
        unfold trainTestPhase
        dsimp only
        rw [hf]
        rfl
  refine ⟨hres, ?_⟩
  intro f m c hcl
  rw [hres] at hcl
  exact TestPhaseResult.noConfusion hcl

/-- C9 witness: an unset test file and a non-existing test file are both
skipped. -/
theorem c9_test_skip_witness :
    trainTestPhase true fsNone none (some "model-test") true = .skipped none ∧
    trainTestPhase true fsNone (some "missing.xml") (some "model-test") true =
      .skipped (some "missing.xml") :=
  ⟨(c9_test_skip fsNone none (some "model-test") true (Or.inl rfl)).1,
   (c9_test_skip fsNone (some "missing.xml") (some "model-test") true
      (Or.inr (fun _ _ => rfl))).1⟩

/-- C10: when `workdir` is given a template (`copyFrom` set) and the
output directory exists, the directory is removed and replaced by a copy
of the template regardless of the caller's `deleteIfExists` flag — the
template unconditionally overrides the choice not to delete. -/
theorem c10_template_overrides_delete (fs : String → Bool) (path t : String)
    (del : Bool) (log : Option String) (hex : fs path = true) :
    workdir fs path del (some t) (some t) log =
      [WdAction.rmtree path, WdAction.copytree (some t) path,
       WdAction.registerAtexitRestore, WdAction.chdir path] ++
        (match log with | some l => [WdAction.openLog l] | none => [WdAction.noLogging]) := by
  unfold workdir
  rw [hex]
  rfl

/-- C10 witness: an existing output directory with a template and
`deleteIfExists = false` is removed and re-created from the template. -/
theorem c10_template_overrides_delete_witness :
    fsAll "out" = true ∧
    workdir fsAll "out" false (some "template") (some "template") (some "log.txt") =
      [WdAction.rmtree "out", WdAction.copytree (some "template") "out",
       WdAction.registerAtexitRestore, WdAction.chdir "out", WdAction.openLog "log.txt"] := by
  refine ⟨rfl, ?_⟩
  exact (c10_template_overrides_delete fsAll "out" "template" false (some "log.txt")
    rfl).trans (by decide)
